import Mathlib

/-!
Shallow embedding of the `cmdrouter` Go package: an interactive menu router
with composable middleware chains, submenu groups, and a pluggable table
printer. The router is `cmdrouter.go`; the built-in printer is the current
`DefaultPrinter` revision, whose `PrintTable(out io.Writer, headers, rows)`
implements the `TablePrinter` interface declared in `cmdrouter.go` (the
package also carries a superseded no-writer revision in `tableprinter.go`
that pairs with its older routers; the current one is packed with
`examples/groups/main.go`).

Modelling conventions:
* The process state `St` threads the shared input stream (a list of lines, as
  delivered on demand by the underlying reader, e.g. interactive stdin), the
  chunks written to the router's configured output `c.out`, the chunks written
  to the process stdout (`fmt.Println` without a writer argument), the sequence
  of tables handed to the configured `TablePrinter` (mirroring a capturing
  printer such as the test suite's `dummyPrinter`), and an instrumentation log
  that tracing handlers and middleware append to (the test suite's `callOrder`).
* Go's `Handler func(ctx) error` becomes `St → St × Err` with
  `Err := Option String` (`none` = nil error); `Middleware` is
  `Handler → Handler`, exactly as in Go.
* Go's unbounded `for` loop in `CmdRouter.Run` is run with fuel
  `input.length + 1`: every iteration that does not exit consumes at least one
  input line, so this fuel is never exhausted for the routers considered.
* Machine integers are `Int`/`Nat`; `strconv.Atoi` models the 64-bit `int`
  range check explicitly.
-/

/-- Cell models Go's `any` values placed in table rows: ints and strings. -/
inductive Cell where
  | int : Int → Cell
  | str : String → Cell
deriving DecidableEq, Repr

/-- Table is one `PrintTable` call: the headers and the rows. -/
abbrev Table := List String × List (List Cell)

/-- St is the observable process state threaded through the router. -/
structure St where
  input : List String
  out : List String
  stdout : List String
  tables : List Table
  log : List String
deriving DecidableEq, Repr

/-- Err models Go's `error` result: `none` is the nil error. -/
abbrev Err := Option String

/-- Handler models Go's `type Handler func(ctx context.Context) error`. -/
abbrev Handler := St → St × Err

/-- Middleware models Go's `type Middleware func(Handler) Handler`. -/
abbrev Middleware := Handler → Handler

/-- MenuOption models Go's `Option` struct (renamed: `Option` is taken by
Lean core). Fields `Name`, `Handler`, `middlewares` of the source keep their
meaning. -/
structure MenuOption where
  name : String
  handler : Handler
  middlewares : List Middleware

/-- Option.Run from `cmdrouter.go`: wrap the handler with the attached
middlewares from the last to the first (`for i := len-1; i >= 0; i--`), so the
first registered middleware is the outermost wrapper, then invoke. -/
def MenuOption.Run (o : MenuOption) : Handler :=
  o.middlewares.foldr (fun m h => m h) o.handler

/-- Router models Go's `CmdRouter` struct. The `tablePrinter`, `in`, `out`
fields are represented behaviourally: printer calls are recorded in
`St.tables`, and the streams live in `St.input` / `St.out`. -/
structure Router where
  name : String
  options : List MenuOption
  middlewares : List Middleware
  isGroup : Bool
  path : String
  pathShow : Bool

/-- constructPath from `cmdrouter.go`. -/
def constructPath (name : String) : String :=
  "> " ++ name ++ " "

/-- NewCmdRouter from `cmdrouter.go`: fresh top-level router. -/
def NewCmdRouter (name : String) (options : List MenuOption) : Router :=
  { name := name, options := options, middlewares := [], isGroup := false,
    path := constructPath name, pathShow := false }

/-- goIsSpace is Go's `unicode.IsSpace` (the `White_Space` property):
U+0009..U+000D, U+0020, U+0085, U+00A0, U+1680, U+2000..U+200A, U+2028,
U+2029, U+202F, U+205F, U+3000. -/
def goIsSpace (c : Char) : Bool :=
  (0x9 ≤ c.toNat && c.toNat ≤ 0xD) || c.toNat == 0x20 || c.toNat == 0x85 ||
  c.toNat == 0xA0 || c.toNat == 0x1680 ||
  (0x2000 ≤ c.toNat && c.toNat ≤ 0x200A) || c.toNat == 0x2028 ||
  c.toNat == 0x2029 || c.toNat == 0x202F || c.toNat == 0x205F ||
  c.toNat == 0x3000

/-- TrimSpace is Go's `strings.TrimSpace`: remove leading and trailing
white-space characters. -/
def TrimSpace (s : String) : String :=
  String.mk (((s.toList.dropWhile goIsSpace).reverse.dropWhile goIsSpace).reverse)

/-- parseDigits reads a non-empty all-decimal-digit character list as a `Nat`;
any other list is a syntax error (`none`). -/
def parseDigits : List Char → Option Nat
  | [] => none
  | cs =>
      if cs.all (fun c => '0' ≤ c && c ≤ '9') then
        some (cs.foldl (fun acc c => acc * 10 + (c.toNat - '0'.toNat)) 0)
      else
        none

/-- Atoi is Go's `strconv.Atoi`: an optional sign, then one or more decimal
digits forming the whole string; values outside the 64-bit `int` range are an
error (`ErrRange`), and any error makes the caller's `err == nil` test fail,
so both error kinds are `none` here. -/
def Atoi (s : String) : Option Int :=
  let signed : Int × List Char :=
    match s.toList with
    | '+' :: r => (1, r)
    | '-' :: r => (-1, r)
    | r => (1, r)
  match parseDigits signed.2 with
  | none => none
  | some n =>
      let v : Int := signed.1 * (n : Int)
      if -(2 ^ 63) ≤ v && v ≤ 2 ^ 63 - 1 then some v else none

/-- validSel is the acceptance test on one input line inside
`getOptionNumber`: `option, err := strconv.Atoi(strings.TrimSpace(text))`
followed by `err == nil && option >= 0 && option <= len(c.options)`. -/
def validSel (n : Nat) (line : String) : Option Int :=
  match Atoi (TrimSpace line) with
  | some k => if 0 ≤ k && k ≤ (n : Int) then some k else none
  | none => none

/-- readLoop is the scanning loop of `getOptionNumber`: print the prompt; if
the scanner is exhausted (end of stream, nil error) break and return 0; else
accept a valid selection, or print the invalid-number diagnostic and repeat.
Returns (selection, remaining input lines, chunks written to `c.out`). -/
def readLoop (n : Nat) : List String → Int × List String × List String
  | [] => (0, [], ["Enter option number: "])
  | l :: rest =>
      match validSel n l with
      | some k => (k, rest, ["Enter option number: "])
      | none =>
          let t := readLoop n rest
          (t.1, t.2.1,
            "Enter option number: " :: "Invalid number. Try again.\n" :: t.2.2)

/-- showPath from `cmdrouter.go`: when enabled, print the router path (via
`fmt.Println`, i.e. to the process stdout). -/
def showPath (r : Router) (s : St) : St :=
  if r.pathShow then { s with stdout := s.stdout ++ [r.path ++ "\n"] } else s

/-- dummyOption is the default for out-of-range list access in the model; by
the range guarantee on selections it is never used on a reachable path (Go
would panic there). -/
def dummyOption : MenuOption :=
  { name := "", handler := fun s => (s, none), middlewares := [] }

/-- menuRows is the row list built by `showMenu`: one row `(i+1, name)` per
option (`for i := range c.options`), then the sentinel row `(0, "<-Back")` for
a group and `(0, "Exit")` otherwise. -/
def menuRows (r : Router) : List (List Cell) :=
  (List.range r.options.length).map
    (fun i => [Cell.int (Int.ofNat i + 1), Cell.str ((r.options.getD i dummyOption).name)]) ++
  [[Cell.int 0, Cell.str (if r.isGroup then "<-Back" else "Exit")]]

/-- showMenu from `cmdrouter.go`: hand headers `["#", name]` and the rows to
the configured table printer together with `c.out` (recorded as one `Table`),
then `fmt.Println()` a blank line to the process stdout. -/
def showMenu (r : Router) (s : St) : St :=
  { s with tables := s.tables ++ [(["#", r.name], menuRows r)],
           stdout := s.stdout ++ ["\n"] }

/-- getOptionNumber from `cmdrouter.go`: show the path and the menu, then scan
input lines until a valid selection or end of stream. -/
def getOptionNumber (r : Router) (s : St) : Int × St :=
  let s1 := showMenu r (showPath r s)
  let t := readLoop r.options.length s1.input
  (t.1, { s1 with input := t.2.1, out := s1.out ++ t.2.2 })

/-- dispatch is the body of one dispatching iteration of `CmdRouter.Run`:
take `c.options[number-1].Run`, wrap it with the global middlewares from the
last to the first, print a blank line to `c.out`, invoke the composed handler
(its error is returned to the loop), and print a closing blank line. -/
def dispatch (r : Router) (number : Int) (s : St) : St × Err :=
  let o := r.options.getD (number - 1).toNat dummyOption
  let composed := r.middlewares.foldr (fun m h => m h) o.Run
  let t := composed { s with out := s.out ++ ["\n"] }
  ({ t.1 with out := t.1.out ++ ["\n"] }, t.2)

/-- RunLoop is `CmdRouter.Run`'s `for` loop with explicit fuel: read a
selection; 0 exits the loop; otherwise dispatch (the returned error is
discarded: `_ = handler(ctx)`) and continue. -/
def RunLoop : Nat → Router → St → St
  | 0, _, s => s
  | fuel + 1, r, s =>
      let t := getOptionNumber r s
      if t.1 = 0 then t.2
      else RunLoop fuel r (dispatch r t.1 t.2).1

/-- Router.Run is `CmdRouter.Run`; fuel `input.length + 1` suffices because
every non-exiting iteration consumes at least one input line. -/
def Router.Run (r : Router) (s : St) : St :=
  RunLoop (s.input.length + 1) r s

/-- Router.Group from `cmdrouter.go`: build the child router (inheriting
printer, streams, `pathShow`, extending the path, with `isGroup` set and no
global middlewares of its own), and register on the parent one option named
after the child whose handler runs the child's loop and returns nil. Returns
(parent with the new option, child). -/
def Router.Group (c : Router) (name : String) (options : List MenuOption) :
    Router × Router :=
  let group : Router :=
    { name := name, options := options, middlewares := [], isGroup := true,
      path := c.path ++ constructPath name, pathShow := c.pathShow }
  ({ c with options := c.options ++
      [{ name := name,
         handler := fun s => (Router.Run group s, none),
         middlewares := [] }] },
   group)

/-- traceMw is an observing middleware in the style of the test suite's
`TestMiddlewareOrder` wrappers: append a label to the call-order log, then
delegate to the next handler. -/
def traceMw (nm : String) : Middleware :=
  fun next s => next { s with log := s.log ++ [nm] }

/-- traceHandler is an observing terminal handler: append a label to the
call-order log and succeed. -/
def traceHandler (nm : String) : Handler :=
  fun s => ({ s with log := s.log ++ [nm] }, none)

/-- failMw is a middleware that signals failure: it records its label and
returns an error without calling the next stage. -/
def failMw (nm e : String) : Middleware :=
  fun _ s => ({ s with log := s.log ++ [nm] }, some e)

/-- failHandler is a terminal handler that signals failure after recording
its label. -/
def failHandler (nm e : String) : Handler :=
  fun s => ({ s with log := s.log ++ [nm] }, some e)

/-- Sinks separates the two byte sinks relevant to the built-in printer: the
process stdout, and the `out io.Writer` argument the router passes as the
table destination (`c.out`). -/
structure Sinks where
  stdout : List String
  outStream : List String
deriving DecidableEq, Repr

/-- cellText is `fmt.Sprint` on the cell values occurring in menu tables. -/
def cellText : Cell → String
  | Cell.int n => toString n
  | Cell.str s => s

/-- computeColumnWidths of `DefaultPrinter`: start from the header rune
counts and raise each column width to the widest cell text in that column. -/
def computeColumnWidths (headers : List String) (rows : List (List Cell)) :
    List Nat :=
  rows.foldl
    (fun ws row =>
      row.enum.foldl
        (fun ws2 p => ws2.set p.1 (max (ws2.getD p.1 0) (cellText p.2).length))
        ws)
    (headers.map (fun h => h.length))

/-- borderLine is the text `printBorder` writes to `out`: `+` then `w+2`
dashes per column, a closing `+`, and the newline of `fmt.Fprintln`. -/
def borderLine (ws : List Nat) : String :=
  (ws.foldl (fun acc w => acc ++ "+" ++ String.mk (List.replicate (w + 2) '-')) "")
    ++ "+" ++ "\n"

/-- padRight is the `%-Wv` verb: left-justify, pad with spaces to the width. -/
def padRight (s : String) (w : Nat) : String :=
  s ++ String.mk (List.replicate (w - s.length) ' ')

/-- rowLine is the text `printRow` writes to `out` for one row: each cell as
`| <padded cell> ` via `fmt.Fprintf`, then `|` and the newline of
`fmt.Fprintln`. -/
def rowLine (ws : List Nat) (row : List Cell) : String :=
  (row.enum.foldl
      (fun acc p => acc ++ "| " ++ padRight (cellText p.2) (ws.getD p.1 0) ++ " ")
      "")
    ++ "|" ++ "\n"

/-- DefaultPrinterPrintTable is the built-in
`DefaultPrinter.PrintTable(out io.Writer, headers, rows)` in its current
revision (packed with `examples/groups/main.go`), which implements the
`TablePrinter` interface of `cmdrouter.go`: with empty headers it returns at
once; otherwise it writes a border, the header row (`toAny headers`), a
border, each data row, and a closing border — every write going through
`fmt.Fprintln` / `fmt.Fprintf` on the given stream `out`, nothing through any
other sink. The Go method returns no value; the model returns the sinks. -/
def DefaultPrinterPrintTable (s : Sinks) (headers : List String)
    (rows : List (List Cell)) : Sinks :=
  if headers.length = 0 then s
  else
    let ws := computeColumnWidths headers rows
    { s with outStream := s.outStream ++
        [borderLine ws, rowLine ws (headers.map Cell.str), borderLine ws] ++
        rows.map (rowLine ws) ++ [borderLine ws] }

/-! Helper lemmas about the embedding, shared by the claim theorems below. -/

/-- showPath never touches the input stream. -/
theorem showPath_input (r : Router) (s : St) : (showPath r s).input = s.input := by
  unfold showPath; split <;> rfl

/-- showPath never touches the instrumentation log. -/
theorem showPath_log (r : Router) (s : St) : (showPath r s).log = s.log := by
  unfold showPath; split <;> rfl

/-- showPath never writes to `c.out`. -/
theorem showPath_out (r : Router) (s : St) : (showPath r s).out = s.out := by
  unfold showPath; split <;> rfl

/-- showPath performs no printer call. -/
theorem showPath_tables (r : Router) (s : St) : (showPath r s).tables = s.tables := by
  unfold showPath; split <;> rfl

/-- getOptionNumber returns the selection computed by the scanning loop. -/
theorem getOptionNumber_fst (r : Router) (s : St) :
    (getOptionNumber r s).1 = (readLoop r.options.length s.input).1 := by
  unfold getOptionNumber showMenu showPath; split <;> rfl

/-- getOptionNumber leaves exactly the input the scanning loop did not consume. -/
theorem getOptionNumber_input (r : Router) (s : St) :
    (getOptionNumber r s).2.input = (readLoop r.options.length s.input).2.1 := by
  unfold getOptionNumber showMenu showPath; split <;> rfl

/-- getOptionNumber invokes no handler or middleware: the log is untouched. -/
theorem getOptionNumber_log (r : Router) (s : St) :
    (getOptionNumber r s).2.log = s.log := by
  unfold getOptionNumber showMenu showPath; split <;> rfl

/-- getOptionNumber performs exactly one printer call: the menu table. -/
theorem getOptionNumber_tables (r : Router) (s : St) :
    (getOptionNumber r s).2.tables = s.tables ++ [(["#", r.name], menuRows r)] := by
  unfold getOptionNumber showMenu showPath; split <;> rfl

/-- getOptionNumber writes to `c.out` exactly the scanning loop's chunks. -/
theorem getOptionNumber_out (r : Router) (s : St) :
    (getOptionNumber r s).2.out = s.out ++ (readLoop r.options.length s.input).2.2 := by
  unfold getOptionNumber showMenu showPath; split <;> rfl

/-- RunLoop with remaining fuel performs one prompting cycle and either exits
on the sentinel or dispatches and continues. -/
theorem RunLoop_succ (fuel : Nat) (r : Router) (s : St) :
    RunLoop (fuel + 1) r s =
      if (getOptionNumber r s).1 = 0 then (getOptionNumber r s).2
      else RunLoop fuel r (dispatch r (getOptionNumber r s).1 (getOptionNumber r s).2).1 := by
  rfl

/-- Run ends immediately after a prompting cycle that returns the sentinel. -/
theorem Run_exit (r : Router) (s : St) (h : (getOptionNumber r s).1 = 0) :
    Router.Run r s = (getOptionNumber r s).2 := by
  unfold Router.Run
  rw [RunLoop_succ, if_pos h]

/-- Run on a non-sentinel selection dispatches and then continues the loop,
whatever error the dispatched chain returned. -/
theorem Run_step (r : Router) (s : St) (h : ¬ (getOptionNumber r s).1 = 0) :
    Router.Run r s =
      RunLoop s.input.length r
        (dispatch r (getOptionNumber r s).1 (getOptionNumber r s).2).1 := by
  unfold Router.Run
  rw [RunLoop_succ, if_neg h]

/-- Composing tracing middleware wraps left-to-right: the composed handler
first records the labels in registration order, then runs the core handler. -/
theorem compose_trace (ms : List String) (h : Handler) (s : St) :
    List.foldr (fun m hh => m hh) h (ms.map traceMw) s
      = h { s with log := s.log ++ ms } := by
  induction ms generalizing s with
  | nil => simp
  | cons a t ih => simp [traceMw, ih, List.append_assoc]

/-- A failing middleware short-circuits the chain: the stages before it run
(and are recorded), it records itself and returns its error, and everything
after it — including the terminal handler — never runs. -/
theorem compose_fail (pre : List String) (f e : String) (post : List Middleware)
    (h : Handler) (s : St) :
    List.foldr (fun m hh => m hh) h (pre.map traceMw ++ failMw f e :: post) s
      = ({ s with log := s.log ++ (pre ++ [f]) }, some e) := by
  induction pre generalizing s with
  | nil => simp [failMw]
  | cons a t ih => simp [traceMw, ih, List.append_assoc]

/-- A line accepted by the selection test carries a value in `[0, n]`. -/
theorem validSel_bounds {n : Nat} {l : String} {k : Int}
    (h : validSel n l = some k) : 0 ≤ k ∧ k ≤ (n : Int) := by
  unfold validSel at h
  split at h
  case _ v heq =>
    by_cases hc : (0 ≤ v && v ≤ (n : Int)) = true
    · rw [if_pos hc] at h
      obtain rfl := Option.some.inj h
      simpa using hc
    · rw [if_neg hc] at h
      exact absurd h (by simp)
  case _ heq => exact absurd h (by simp)

/-- The line "0" is accepted as the sentinel for every option count. -/
theorem validSel_zero (n : Nat) : validSel n "0" = some 0 := by
  unfold validSel
  have h0 : Atoi (TrimSpace "0") = some 0 := by decide
  rw [h0]
  simp

/-- A valid first line is returned at once with one prompt written. -/
theorem readLoop_cons_valid {n : Nat} {l : String} {k : Int} (rest : List String)
    (h : validSel n l = some k) :
    readLoop n (l :: rest) = (k, rest, ["Enter option number: "]) := by
  simp [readLoop, h]

/-- An invalid first line yields no selection: the prompt and the diagnostic
are written and scanning continues on the remaining lines. -/
theorem readLoop_cons_invalid {n : Nat} {l : String} (rest : List String)
    (h : validSel n l = none) :
    readLoop n (l :: rest) =
      ((readLoop n rest).1, (readLoop n rest).2.1,
        "Enter option number: " :: "Invalid number. Try again.\n" ::
          (readLoop n rest).2.2) := by
  simp [readLoop, h]

/-- The scanning loop only ever returns selections in `[0, n]`. -/
theorem readLoop_bounds (n : Nat) (input : List String) :
    0 ≤ (readLoop n input).1 ∧ (readLoop n input).1 ≤ (n : Int) := by
  induction input with
  | nil => simp [readLoop]
  | cons l rest ih =>
      cases hv : validSel n l with
      | some k => rw [readLoop_cons_valid rest hv]; exact validSel_bounds hv
      | none => rw [readLoop_cons_invalid rest hv]; exact ih

/-- A prefix of invalid lines changes neither the selection nor the remaining
input that the scanning loop finally produces. -/
theorem readLoop_all_invalid {n : Nat} (bads tail : List String)
    (h : ∀ b ∈ bads, validSel n b = none) :
    (readLoop n (bads ++ tail)).1 = (readLoop n tail).1 ∧
    (readLoop n (bads ++ tail)).2.1 = (readLoop n tail).2.1 := by
  induction bads with
  | nil => simp
  | cons b bs ih =>
      have hb : validSel n b = none := h b (by simp)
      have ih2 := ih (fun x hx => h x (by simp [hx]))
      rw [List.cons_append, readLoop_cons_invalid (bs ++ tail) hb]
      exact ih2

/-- Reading a mapped range list at an in-range position yields the image. -/
theorem getD_range_map {α : Type} (n i : Nat) (f : Nat → α) (d : α) (h : i < n) :
    ((List.range n).map f).getD i d = f i := by
  simp [List.getD_eq_getElem?_getD, List.getElem?_map, List.getElem?_range, h]

/-- Reading a snoc list at the position of the appended element yields it. -/
theorem getD_concat {α : Type} (l : List α) (a d : α) :
    (l ++ [a]).getD l.length d = a := by
  rw [List.getD_eq_getElem?_getD, List.getElem?_append_right (le_refl _)]
  simp

/-! Instrumented scenario routers, in the style of the repository's own test
suite (`cmdrouter_test.go` records call order through closures). -/

/-- traceOption is an option whose local middlewares record the labels `ls`
and whose terminal handler records "H". -/
def traceOption (ls : List String) : MenuOption :=
  { name := "Test", handler := traceHandler "H", middlewares := ls.map traceMw }

/-- traceRouter carries global middlewares recording `gs` around the single
`traceOption ls`. -/
def traceRouter (gs ls : List String) : Router :=
  { name := "Menu", options := [traceOption ls], middlewares := gs.map traceMw,
    isGroup := false, path := constructPath "Menu", pathShow := false }

/-- runTraceOption is the i-th instrumented option: its handler records
"run i" so dispatches are attributable to one option index. -/
def runTraceOption (i : Nat) : MenuOption :=
  { name := "opt" ++ toString i, handler := traceHandler ("run " ++ toString i),
    middlewares := [] }

/-- indexRouter has `n` distinguishable instrumented options and no
middleware. -/
def indexRouter (n : Nat) : Router :=
  { name := "Menu", options := (List.range n).map runTraceOption,
    middlewares := [], isGroup := false, path := constructPath "Menu",
    pathShow := false }

/-- st0 is a start state: the given input lines and empty sinks. -/
def st0 (lines : List String) : St :=
  { input := lines, out := [], stdout := [], tables := [], log := [] }

/-- failOptRouter has one option with the given handler and no middleware. -/
def failOptRouter (h : Handler) : Router :=
  { name := "Menu",
    options := [{ name := "x", handler := h, middlewares := [] }],
    middlewares := [], isGroup := false, path := constructPath "Menu",
    pathShow := false }

/-- Claim C1: for every router with global middleware list `gs` (in
registration order) and a selected option with local middleware list `ls`
(in registration order) and terminal handler H, dispatching that option
invokes the wrappers and the handler in exactly the order `gs`, then `ls`,
then H, and the chain succeeds; in particular globals `[g1, g2]` and local
`[l1]` observe the call order `g1, g2, l1, H`. -/
theorem claim_C1 (gs ls : List String) (s : St) :
    ((dispatch (traceRouter gs ls) 1 s).1.log = s.log ++ (gs ++ (ls ++ ["H"])) ∧
     (dispatch (traceRouter gs ls) 1 s).2 = none) ∧
    (Router.Run (traceRouter ["g1", "g2"] ["l1"]) (st0 ["1", "0"])).log
      = ["g1", "g2", "l1", "H"] := by
  refine ⟨?_, by decide⟩
  have hopt : (traceRouter gs ls).options.getD ((1 : Int) - 1).toNat dummyOption
      = traceOption ls := rfl
  have hrun : MenuOption.Run (traceOption ls)
      = List.foldr (fun m h => m h) (traceHandler "H") (ls.map traceMw) := rfl
  have hmv : (traceRouter gs ls).middlewares = gs.map traceMw := rfl
  unfold dispatch
  rw [hopt]
  simp only [hrun, hmv]
  rw [compose_trace, compose_trace]
  constructor
  · simp [traceHandler, List.append_assoc]
  · rfl

/-- Claim C2: for a router with `n` registered options and a parsed selection
`k` with `1 ≤ k ≤ n` (the line `l` parses to `k ≠ 0`), the dispatch step
invokes exactly the option stored at index `k - 1` of the action list, and no
other option runs in that dispatch cycle: the instrumentation log of the
whole run records precisely one dispatch, of option `k - 1`. -/
theorem claim_C2 (n : Nat) (k : Int) (l : String)
    (hv : validSel n l = some k) (hk : k ≠ 0) :
    (∀ s : St, (dispatch (indexRouter n) k s).1.log
        = s.log ++ ["run " ++ toString (k - 1).toNat]) ∧
    (Router.Run (indexRouter n) (st0 [l])).log
      = ["run " ++ toString (k - 1).toNat] := by
  obtain ⟨hk0, hkn⟩ := validSel_bounds hv
  have hlt : (k - 1).toNat < n := by omega
  have hopt : (indexRouter n).options.getD (k - 1).toNat dummyOption
      = runTraceOption (k - 1).toNat :=
    getD_range_map n (k - 1).toNat runTraceOption dummyOption hlt
  have hd : ∀ s : St, dispatch (indexRouter n) k s
      = ({ s with out := s.out ++ ["\n", "\n"],
                  log := s.log ++ ["run " ++ toString (k - 1).toNat] }, none) := by
    intro s
    unfold dispatch
    rw [hopt]
    simp only [runTraceOption, MenuOption.Run, indexRouter, List.foldr_nil,
      traceHandler]
    simp
  have hlen : (indexRouter n).options.length = n := by
    simp [indexRouter]
  constructor
  · intro s
    rw [hd s]
  · have hfst : (getOptionNumber (indexRouter n) (st0 [l])).1 = k := by
      rw [getOptionNumber_fst, hlen, show (st0 [l]).input = [l] from rfl]
      rw [readLoop_cons_valid ([] : List String) hv]
    have hne : ¬ (getOptionNumber (indexRouter n) (st0 [l])).1 = 0 := by
      rw [hfst]; exact hk
    rw [Run_step _ _ hne, hfst]
    have hginp : (getOptionNumber (indexRouter n) (st0 [l])).2.input = [] := by
      rw [getOptionNumber_input, hlen, show (st0 [l]).input = [l] from rfl,
        readLoop_cons_valid ([] : List String) hv]
    have hglog : (getOptionNumber (indexRouter n) (st0 [l])).2.log = [] :=
      getOptionNumber_log _ _
    rw [hd]
    show (RunLoop 1 (indexRouter n) _).log = _
    rw [show (1 : Nat) = 0 + 1 from rfl, RunLoop_succ]
    rw [if_pos (by rw [getOptionNumber_fst]
                   show (readLoop (indexRouter n).options.length
                     (getOptionNumber (indexRouter n) (st0 [l])).2.input).1 = 0
                   rw [hginp]
                   rfl)]
    rw [getOptionNumber_log]
    show (getOptionNumber (indexRouter n) (st0 [l])).2.log
      ++ ["run " ++ toString (k - 1).toNat] = _
    rw [hglog]
    rfl

/-- Claim C2 witness: with 3 options and the input line "2", exactly option
index 1 is dispatched. -/
theorem claim_C2_witness :
    validSel 3 "2" = some 2 ∧ ((2 : Int) ≠ 0) ∧
    (Router.Run (indexRouter 3) (st0 ["2"])).log
      = ["run " ++ toString ((2 : Int) - 1).toNat] :=
  ⟨by decide, by decide, (claim_C2 3 2 "2" (by decide) (by decide)).2⟩

/-- Claim C3: reading the sentinel selection 0 in the Prompting state
terminates the router's loop immediately: the whole run equals the state of
that single prompting cycle, with the instrumentation log untouched (so no
option handler and no middleware was invoked in that cycle) and the rest of
the input unconsumed. -/
theorem claim_C3 (r : Router) (s : St) (l : String) (rest : List String)
    (hin : s.input = l :: rest)
    (hv : validSel r.options.length l = some 0) :
    Router.Run r s = (getOptionNumber r s).2 ∧
    (getOptionNumber r s).2.log = s.log ∧
    (getOptionNumber r s).2.input = rest := by
  have hfst : (getOptionNumber r s).1 = 0 := by
    rw [getOptionNumber_fst, hin, readLoop_cons_valid rest hv]
  refine ⟨Run_exit r s hfst, getOptionNumber_log r s, ?_⟩
  rw [getOptionNumber_input, hin, readLoop_cons_valid rest hv]

/-- Claim C3 witness: a one-option router fed the single line "0" terminates
at once with the log untouched. -/
theorem claim_C3_witness :
    (st0 ["0"]).input = "0" :: [] ∧
    validSel (indexRouter 1).options.length "0" = some 0 ∧
    Router.Run (indexRouter 1) (st0 ["0"])
      = (getOptionNumber (indexRouter 1) (st0 ["0"])).2 ∧
    (getOptionNumber (indexRouter 1) (st0 ["0"])).2.log = (st0 ["0"]).log :=
  ⟨rfl, by decide,
   (claim_C3 (indexRouter 1) (st0 ["0"]) "0" [] rfl (by decide)).1,
   (claim_C3 (indexRouter 1) (st0 ["0"]) "0" [] rfl (by decide)).2.1⟩

/-- Claim C4 counterexample: the claim states that the router loop
logs/reports a dispatch failure, but `CmdRouter.Run` discards the composed
handler's error (`_ = handler(ctx)`). Concretely, at input `["1", "0"]` the
run whose only handler fails with error "boom" is observationally identical —
same configured-output chunks, same stdout, same printer calls, same
instrumentation log — to the run whose handler succeeds, so the failure is
reported nowhere; the final output holds only the two prompts and the two
blank framing lines. -/
theorem claim_C4_counterexample :
    Router.Run (failOptRouter (failHandler "h" "boom")) (st0 ["1", "0"])
      = Router.Run (failOptRouter (traceHandler "h")) (st0 ["1", "0"]) ∧
    (Router.Run (failOptRouter (failHandler "h" "boom")) (st0 ["1", "0"])).out
      = ["Enter option number: ", "\n", "\n", "Enter option number: "] := by
  constructor <;> decide

/-- Claim C4 (amended): if any global middleware, local middleware, or the
terminal handler signals failure during a dispatch, no later stage of that
chain runs and the failure propagates to the router loop, which discards it
(it does not log or report it) and continues with the next Prompting cycle; a
failure in one dispatch never terminates the router. Part one: a failing
local middleware stops the local chain before every later stage and the
terminal handler, returning its error. Part two: a failing global middleware
stops the whole dispatch the same way (only the framing blank lines are
written) and the error is handed back to the loop. Part three: with a failing
terminal handler the loop goes on to the next prompting cycle unchanged by
the error and terminates only at the explicit sentinel, with nothing about
the error in any sink. -/
theorem claim_C4_amended :
    (∀ (pre : List String) (f e : String) (post : List Middleware)
       (h : Handler) (nm : String) (s : St),
      MenuOption.Run
          { name := nm, handler := h,
            middlewares := pre.map traceMw ++ failMw f e :: post } s
        = ({ s with log := s.log ++ (pre ++ [f]) }, some e)) ∧
    (∀ (rn : String) (pre : List String) (f e : String) (post : List Middleware)
       (opts : List MenuOption) (k : Int) (s : St),
      dispatch
          { name := rn, options := opts,
            middlewares := pre.map traceMw ++ failMw f e :: post,
            isGroup := false, path := "", pathShow := false } k s
        = ({ s with out := s.out ++ ["\n", "\n"],
                    log := s.log ++ (pre ++ [f]) }, some e)) ∧
    (∀ e : String,
      Router.Run (failOptRouter (failHandler "h" e)) (st0 ["1", "0"])
        = { input := [], out := ["Enter option number: ", "\n", "\n",
                                 "Enter option number: "],
            stdout := ["\n", "\n"],
            tables := [(["#", "Menu"],
                        [[Cell.int 1, Cell.str "x"], [Cell.int 0, Cell.str "Exit"]]),
                       (["#", "Menu"],
                        [[Cell.int 1, Cell.str "x"], [Cell.int 0, Cell.str "Exit"]])],
            log := ["h"] }) := by
  refine ⟨?_, ?_, ?_⟩
  · intro pre f e post h nm s
    show List.foldr (fun m hh => m hh) h (pre.map traceMw ++ failMw f e :: post) s = _
    exact compose_fail pre f e post h s
  · intro rn pre f e post opts k s
    unfold dispatch
    simp only []
    rw [compose_fail]
    simp [List.append_assoc]
  · intro e
    rfl

/-- Claim C5: an input line whose trimmed content is not a base-10 integer in
`[0, n]` never produces a selection: the scanning loop writes the diagnostic
after the prompt and re-prompts on the remaining lines (first part); the
claim's example lines "abc" and "99" with 3 options are such lines (second
part); and after any run of such invalid lines a subsequent valid sentinel
"0" still terminates the loop normally, with no option dispatched and the
whole input consumed (third part). -/
theorem claim_C5 (n : Nat) (bad : String) (rest : List String)
    (hbad : validSel n bad = none) :
    (readLoop n (bad :: rest)
      = ((readLoop n rest).1, (readLoop n rest).2.1,
          "Enter option number: " :: "Invalid number. Try again.\n" ::
            (readLoop n rest).2.2)) ∧
    (validSel 3 "abc" = none ∧ validSel 3 "99" = none) ∧
    (∀ (r : Router) (s : St) (bads : List String),
      (∀ b ∈ bads, validSel r.options.length b = none) →
      s.input = bads ++ ["0"] →
      (readLoop r.options.length s.input).1 = 0 ∧
      Router.Run r s = (getOptionNumber r s).2 ∧
      (getOptionNumber r s).2.log = s.log ∧
      (getOptionNumber r s).2.input = []) := by
  refine ⟨readLoop_cons_invalid rest hbad, ⟨by decide, by decide⟩, ?_⟩
  intro r s bads hbs hin
  have hz : readLoop r.options.length ["0"]
      = (0, [], ["Enter option number: "]) :=
    readLoop_cons_valid [] (validSel_zero r.options.length)
  have h0 : (readLoop r.options.length (bads ++ ["0"])).1 = 0 ∧
      (readLoop r.options.length (bads ++ ["0"])).2.1 = [] := by
    have h := readLoop_all_invalid (n := r.options.length) bads ["0"] hbs
    rw [hz] at h
    exact h
  have hfst : (getOptionNumber r s).1 = 0 := by
    rw [getOptionNumber_fst, hin]; exact h0.1
  refine ⟨by rw [hin]; exact h0.1, Run_exit r s hfst, getOptionNumber_log r s, ?_⟩
  rw [getOptionNumber_input, hin]; exact h0.2

/-- Claim C5 witness: with 3 options, the invalid line "abc" re-prompts with a
diagnostic, and the input "abc", "99", "0" terminates the run normally with
nothing dispatched. -/
theorem claim_C5_witness :
    validSel 3 "abc" = none ∧
    readLoop 3 ["abc"]
      = ((readLoop 3 []).1, (readLoop 3 []).2.1,
          "Enter option number: " :: "Invalid number. Try again.\n" ::
            (readLoop 3 []).2.2) ∧
    Router.Run (indexRouter 3) (st0 ["abc", "99", "0"])
      = (getOptionNumber (indexRouter 3) (st0 ["abc", "99", "0"])).2 :=
  ⟨by decide, (claim_C5 3 "abc" [] (by decide)).1,
   ((claim_C5 3 "abc" [] (by decide)).2.2 (indexRouter 3)
      (st0 ["abc", "99", "0"]) ["abc", "99"] (by decide) rfl).2.1⟩

/-- Claim C6: when the input is exhausted (end of stream, no read error)
before any valid selection in the current Prompting cycle — every available
line, if any, being invalid — the loop terminates exactly as if the sentinel
0 had been selected: the run ends in the state of that single prompting
cycle, without invoking any handler or middleware. -/
theorem claim_C6 (r : Router) (s : St) (bads : List String)
    (hin : s.input = bads)
    (hb : ∀ b ∈ bads, validSel r.options.length b = none) :
    (readLoop r.options.length s.input).1 = 0 ∧
    Router.Run r s = (getOptionNumber r s).2 ∧
    (getOptionNumber r s).2.log = s.log ∧
    (getOptionNumber r s).2.input = [] := by
  have h0 : (readLoop r.options.length bads).1 = 0 ∧
      (readLoop r.options.length bads).2.1 = [] := by
    have h := readLoop_all_invalid (n := r.options.length) bads [] hb
    simpa using h
  have hfst : (getOptionNumber r s).1 = 0 := by
    rw [getOptionNumber_fst, hin]; exact h0.1
  refine ⟨by rw [hin]; exact h0.1, Run_exit r s hfst, getOptionNumber_log r s, ?_⟩
  rw [getOptionNumber_input, hin]; exact h0.2

/-- Claim C6 witness: a one-option router whose input holds only the invalid
line "abc" terminates as an implicit exit. -/
theorem claim_C6_witness :
    (st0 ["abc"]).input = ["abc"] ∧
    (readLoop (indexRouter 1).options.length (st0 ["abc"]).input).1 = 0 ∧
    Router.Run (indexRouter 1) (st0 ["abc"])
      = (getOptionNumber (indexRouter 1) (st0 ["abc"])).2 :=
  ⟨rfl, (claim_C6 (indexRouter 1) (st0 ["abc"]) ["abc"] rfl (by decide)).1,
   (claim_C6 (indexRouter 1) (st0 ["abc"]) ["abc"] rfl (by decide)).2.1⟩

/-- Claim C7: `Group(title, options...)` registers exactly one new action on
the parent — the parent's action list grows by one, keeping its existing
actions, and the new action bears the child's title; the new action's handler
runs the child router's own loop and returns success (nil) when that loop
ends; the child keeps exactly its own action list (`isGroup` set, never the
parent's list). In the concrete scenario — parent "Main" with the single
group "Sub" and input `["1", "0", "0"]` — the printer-call sequence is parent
menu, child menu, parent menu again: selecting 0 inside the child terminated
only the child's loop, the parent re-rendered and re-prompted, and only the
final 0 ended the parent. -/
theorem claim_C7 (c : Router) (nm : String) (opts : List MenuOption) :
    ((c.Group nm opts).1.options.length = c.options.length + 1) ∧
    ((c.Group nm opts).1.options.take c.options.length = c.options) ∧
    (((c.Group nm opts).1.options.getD c.options.length dummyOption).name = nm) ∧
    (∀ s : St, ((c.Group nm opts).1.options.getD c.options.length dummyOption).handler s
        = (Router.Run (c.Group nm opts).2 s, none)) ∧
    ((c.Group nm opts).2.options = opts) ∧
    ((c.Group nm opts).2.isGroup = true) ∧
    ((c.Group nm opts).2.name = nm) ∧
    ((Router.Run (Router.Group (NewCmdRouter "Main" []) "Sub" []).1
        (st0 ["1", "0", "0"])).tables
      = [(["#", "Main"], [[Cell.int 1, Cell.str "Sub"], [Cell.int 0, Cell.str "Exit"]]),
         (["#", "Sub"], [[Cell.int 0, Cell.str "<-Back"]]),
         (["#", "Main"], [[Cell.int 1, Cell.str "Sub"], [Cell.int 0, Cell.str "Exit"]])]) ∧
    ((Router.Run (Router.Group (NewCmdRouter "Main" []) "Sub" []).1
        (st0 ["1", "0", "0"])).input = []) := by
  have hopts : (c.Group nm opts).1.options
      = c.options ++
        [{ name := nm,
           handler := fun s => (Router.Run (c.Group nm opts).2 s, none),
           middlewares := [] }] := rfl
  refine ⟨?_, ?_, ?_, ?_, rfl, rfl, rfl, by decide, by decide⟩
  · rw [hopts]; simp
  · rw [hopts, List.take_left]
  · rw [hopts, getD_concat]
  · intro s
    rw [hopts, getD_concat]

/-- Claim C8: every menu render passes to the table printer the header row
`["#", <router title>]` together with exactly `n + 1` data rows: for
`i < n` the row at position `i` is `(i + 1, name of option i)` (that is, the
1-based row `i` is `(i, name of option i)`), and the final row is
`(0, "Exit")` for a top-level router and `(0, "<-Back")` for a submenu
router; this holds both for `showMenu` itself and for the render performed at
the start of each prompting cycle. -/
theorem claim_C8 (r : Router) (s : St) (i : Nat) :
    ((showMenu r s).tables = s.tables ++ [(["#", r.name], menuRows r)]) ∧
    ((getOptionNumber r s).2.tables = s.tables ++ [(["#", r.name], menuRows r)]) ∧
    ((menuRows r).length = r.options.length + 1) ∧
    ((menuRows r).getD i []
      = if i < r.options.length then
          [Cell.int (Int.ofNat i + 1),
           Cell.str ((r.options.getD i dummyOption).name)]
        else if i = r.options.length then
          [Cell.int 0, Cell.str (if r.isGroup then "<-Back" else "Exit")]
        else []) := by
  refine ⟨rfl, getOptionNumber_tables r s, by simp [menuRows], ?_⟩
  by_cases h1 : i < r.options.length
  · rw [if_pos h1]
    unfold menuRows
    rw [List.getD_eq_getElem?_getD, List.getElem?_append_left (by simpa using h1),
      List.getElem?_map, List.getElem?_range h1]
    rfl
  · rw [if_neg h1]
    by_cases h2 : i = r.options.length
    · rw [if_pos h2]
      unfold menuRows
      rw [List.getD_eq_getElem?_getD,
        List.getElem?_append_right (by simp [h2])]
      simp [h2]
    · rw [if_neg h2]
      unfold menuRows
      rw [List.getD_eq_getElem?_getD, List.getElem?_eq_none (by simp; omega)]
      rfl

/-- Claim C9: the built-in table renderer's print operation, given an output
stream, headers and rows, returns nothing (in the model the sinks are the
whole result) and writes all of its formatted table text — opening border,
header row, middle border, every data row, closing border — to the given
output stream and nowhere else: for all inputs the process stdout is
untouched (first part) and the given stream receives exactly the formatted
lines, none at all under the source's empty-headers guard (second part); on
the concrete headers `["#", "Menu"]` and rows `[[1, "A"], [0, "Exit"]]` the
given stream receives precisely the expected box text (third part). -/
theorem claim_C9 :
    (∀ (s : Sinks) (headers : List String) (rows : List (List Cell)),
      (DefaultPrinterPrintTable s headers rows).stdout = s.stdout) ∧
    (∀ (s : Sinks) (headers : List String) (rows : List (List Cell)),
      (DefaultPrinterPrintTable s headers rows).outStream
        = s.outStream ++
          (if headers.length = 0 then []
           else
             [borderLine (computeColumnWidths headers rows),
              rowLine (computeColumnWidths headers rows) (headers.map Cell.str),
              borderLine (computeColumnWidths headers rows)] ++
             rows.map (rowLine (computeColumnWidths headers rows)) ++
             [borderLine (computeColumnWidths headers rows)])) ∧
    ((DefaultPrinterPrintTable { stdout := [], outStream := [] } ["#", "Menu"]
        [[Cell.int 1, Cell.str "A"], [Cell.int 0, Cell.str "Exit"]]).outStream
      = ["+---+------+\n", "| # | Menu |\n", "+---+------+\n",
         "| 1 | A    |\n", "| 0 | Exit |\n", "+---+------+\n"]) := by
  refine ⟨?_, ?_, by decide⟩
  · intro s headers rows
    unfold DefaultPrinterPrintTable
    split <;> rfl
  · intro s headers rows
    unfold DefaultPrinterPrintTable
    by_cases h : headers.length = 0
    · rw [if_pos h, if_pos h]
      simp
    · rw [if_neg h, if_neg h]
      simp [List.append_assoc]

/-- Claim C10: the selection-reading operation returns only integers in
`[0, len(options)]`; hence whenever the loop dispatches (selection not 0) the
index `selection - 1` is within the action list's bounds (the indexing error
branch is unreachable), and a router with zero options can only ever exit:
its run ends with the first prompting cycle. -/
theorem claim_C10 (r : Router) (s : St) :
    (0 ≤ (getOptionNumber r s).1 ∧
     (getOptionNumber r s).1 ≤ (r.options.length : Int)) ∧
    ((getOptionNumber r s).1 ≠ 0 →
      ((getOptionNumber r s).1 - 1).toNat < r.options.length) ∧
    (r.options = [] → Router.Run r s = (getOptionNumber r s).2) := by
  have hb := readLoop_bounds r.options.length s.input
  have hf := getOptionNumber_fst r s
  refine ⟨⟨by rw [hf]; exact hb.1, by rw [hf]; exact hb.2⟩, ?_, ?_⟩
  · intro hne
    rw [hf] at hne ⊢
    omega
  · intro hopt
    apply Run_exit
    rw [hf]
    have hlen : r.options.length = 0 := by rw [hopt]; rfl
    rw [hlen] at hb ⊢
    omega

/-- Claim C10 witness: with two options and input "1" the dispatch index 0 is
in bounds, and a zero-option router fed "7" simply exits. -/
theorem claim_C10_witness :
    (((getOptionNumber (indexRouter 2) (st0 ["1"])).1 - 1).toNat
        < (indexRouter 2).options.length) ∧
    (Router.Run (indexRouter 0) (st0 ["7"])
        = (getOptionNumber (indexRouter 0) (st0 ["7"])).2) :=
  ⟨(claim_C10 (indexRouter 2) (st0 ["1"])).2.1 (by decide),
   (claim_C10 (indexRouter 0) (st0 ["7"])).2.2 rfl⟩
